import Mathlib

/-!
A shallow embedding of src/src/query-builder/SelectQueryBuilder.ts (the
SELECT-query compiler and execution orchestrator of a TypeORM fork), together
with theorems settling the frozen claims about it.

Modelling conventions:
* JavaScript numbers that are `undefined`-able and tested for truthiness
  (limit, offset, skip, take) become Option Nat, with truthiness
  `some n` for `n ≠ 0`.
* Concrete driver classes become the Dialect enum; `instanceof` checks become
  decidable predicates on it.  AuroraDataApiDriver extends MysqlDriver in the
  driver sources, so `instanceof MysqlDriver` also accepts the Aurora dialect.
* Methods of the base class QueryBuilder that are not part of this source file
  (escape, replacePropertyNames, getTableName, DriverUtils.buildAlias,
  createComment, createWhereExpression) are collaborator parameters carried in
  the Ctx record or passed explicitly.
* Fallible code returns Except QBError.
-/

namespace TypeOrmSelectQB

/-- The SQL dialect of the active connection's driver.  `generic` stands for
any driver matched by none of the `instanceof` tests in this file
(e.g. CockroachDriver reaches the generic limit/offset branch). -/
inductive Dialect
  | sqlserver
  | mysql
  | auroraDataApi
  | sap
  | sqlite
  | oracle
  | postgres
  | cockroach
  | generic
deriving DecidableEq, Repr

/-- `driver instanceof MysqlDriver`: AuroraDataApiDriver extends MysqlDriver,
so both dialects satisfy this test. -/
def Dialect.isMysqlDriver : Dialect → Bool
  | .mysql => true
  | .auroraDataApi => true
  | _ => false

/-- JavaScript truthiness of an optional number (`undefined` and `0` are
falsy). -/
def truthyNum : Option Nat → Bool
  | none => false
  | some n => n != 0

/-- JavaScript truthiness of an optional string (`undefined` and `""` are
falsy). -/
def truthyStr : Option String → Bool
  | none => false
  | some s => s != ""

/-- A slice of ColumnMetadata: the fields this file reads. -/
structure ColumnMeta where
  propertyPath : String
  databaseName : String
  isSelect : Bool := true
  typ : String := ""
  precision : Option Nat := none
  isPrimary : Bool := false
deriving DecidableEq, Repr

/-- A slice of EntityMetadata: the fields this file reads. -/
structure Metadata where
  name : String := ""
  columns : List ColumnMeta := []
  hasVersionColumn : Bool := false
  hasUpdateDateColumn : Bool := false
deriving DecidableEq, Repr

/-- metadata.primaryColumns. -/
def Metadata.primaryColumns (md : Metadata) : List ColumnMeta :=
  md.columns.filter (·.isPrimary)

/-- metadata.hasMultiplePrimaryKeys. -/
def Metadata.hasMultiplePrimaryKeys (md : Metadata) : Bool :=
  md.primaryColumns.length > 1

/-- Alias.type. -/
inductive AliasType
  | fromType
  | joinType
  | otherType
deriving DecidableEq, Repr

/-- An Alias entry of the expression map. -/
structure Alias where
  name : String
  type : AliasType := .fromType
  tablePath : Option String := none
  subQuery : Option String := none
  metadata : Option Metadata := none
deriving DecidableEq, Repr

/-- One entry of expressionMap.selects (the SelectQuery shape). -/
structure SelectItem where
  selection : String
  aliasName : Option String := none
  virtual : Option Bool := none
deriving DecidableEq, BEq, Repr

/-- Combinator of a where/having entry ("simple", "and", "or"). -/
inductive WhereType
  | simple
  | and_
  | or_
deriving DecidableEq, Repr

/-- One entry of expressionMap.havings (and wheres). -/
structure Having where
  type : WhereType
  condition : String
deriving DecidableEq, Repr

/-- expressionMap.lockMode values (undefined is modelled by Option). -/
inductive LockMode
  | optimistic
  | pessimisticRead
  | pessimisticWrite
  | dirtyRead
  | pessimisticPartialWrite
  | pessimisticWriteOrFail
  | forNoKeyUpdate
deriving DecidableEq, Repr

/-- expressionMap.lockVersion: a number or a Date (kept as its epoch time). -/
inductive LockVersion
  | num (n : Int)
  | date (time : Int)
deriving DecidableEq, Repr

/-- JavaScript truthiness of the stored lock version: the number 0 is falsy,
a Date object is always truthy. -/
def truthyLockVersion : Option LockVersion → Bool
  | none => false
  | some (.num n) => n != 0
  | some (.date _) => true

/-- A value of the allOrderBys map: either a plain order string or an
object with order and nulls components. -/
inductive OrderVal
  | str (s : String)
  | obj (order : String) (nulls : String)
deriving DecidableEq, Repr

/-- The data of one JoinAttribute consumed by the clause compilers.  The
tablePath/junctionAlias/metadata getters of JoinAttribute live outside this
source file; their values are carried as fields. -/
structure JoinColumnMeta where
  propertyPath : String
  referencedColumnPropertyPath : String
deriving DecidableEq, Repr

/-- Relation cardinality/ownership as read through the isManyToOne /
isOneToOneOwner / isOneToMany / isOneToOneNotOwner tests. -/
inductive RelationKind
  | manyToOne
  | oneToOneOwner
  | oneToMany
  | oneToOneNotOwner
  | manyToMany
deriving DecidableEq, Repr

/-- The slice of RelationMetadata consumed by createJoinExpression. -/
structure RelationMeta where
  kind : RelationKind
  propertyPath : String := ""
  joinColumns : List JoinColumnMeta := []
  inverseJoinColumns : List JoinColumnMeta := []
  inverseRelationPropertyPath : String := ""
  inverseRelationJoinColumns : List JoinColumnMeta := []
  inverseRelationInverseJoinColumns : List JoinColumnMeta := []
  inverseEntityIsChildWithDiscriminator : Bool := false
  discriminatorDatabaseName : String := ""
  discriminatorValue : String := ""
  junctionTablePath : String := ""
  isOwning : Bool := false
deriving DecidableEq, Repr

/-- One JoinAttribute of the expression map. -/
structure JoinAttr where
  direction : String := "LEFT"
  tablePath : String := ""
  aliasName : String := ""
  aliasSubQuery : Option String := none
  condition : Option String := none
  parentAlias : Option String := none
  relation : Option RelationMeta := none
  junctionAlias : String := ""
  metadata : Option Metadata := none
deriving DecidableEq, Repr

/-- The slice of QueryExpressionMap consumed by SelectQueryBuilder.
`allOrderBys` is a derived getter of QueryExpressionMap (a file outside this
source); its value is carried here as data. -/
structure ExprMap where
  selects : List SelectItem := []
  aliases : List Alias := []
  mainAlias : Option Alias := none
  joinAttributes : List JoinAttr := []
  relationIdAttributes : List String := []
  relationCountAttributes : List String := []
  havings : List Having := []
  groupBys : List String := []
  allOrderBys : List (String × OrderVal) := []
  limit : Option Nat := none
  offset : Option Nat := none
  skip : Option Nat := none
  take : Option Nat := none
  lockMode : Option LockMode := none
  lockVersion : Option LockVersion := none
  lockTables : Option (List String) := none
  cache : Bool := false
  cacheId : Option String := none
  subQuery : Bool := false
  queryEntity : Bool := false
  selectDistinct : Bool := false
  selectDistinctOn : List String := []
  maxExecutionTime : Nat := 0
deriving Repr

/-- The errors this file can raise. -/
inductive QBError
  | offsetWithoutLimitNotSupported
  | lockNotSupportedOnGivenDriver
  | typeOrmError (msg : String)
  | pessimisticLockTransactionRequired
  | noVersionOrUpdateDateColumn (entityName : String)
  | optimisticLockCanNotBeUsed
  | optimisticLockVersionMismatch
  | aliasMetadataNotSet
  | cacheError
deriving DecidableEq, Repr

/-- createLimitOffsetExpression (SelectQueryBuilder.ts lines 1611-1676).
When neither offset nor limit is truthy and the query has no joins, the
skip/take pair is used instead; then the dialect-specific clause is built. -/
def createLimitOffsetExpression (d : Dialect) (m : ExprMap) : Except QBError String :=
  let p :=
    if !truthyNum m.offset && !truthyNum m.limit && m.joinAttributes.length == 0 then
      (m.skip, m.take)
    else
      (m.offset, m.limit)
  let offset := p.1
  let limit := p.2
  if d = .sqlserver then
    let pre :=
      if (truthyNum limit || truthyNum offset) && m.allOrderBys.length == 0 then
        " ORDER BY (SELECT NULL)"
      else ""
    if truthyNum limit && truthyNum offset then
      .ok (pre ++ " OFFSET " ++ toString (offset.getD 0) ++ " ROWS FETCH NEXT " ++
        toString (limit.getD 0) ++ " ROWS ONLY")
    else if truthyNum limit then
      .ok (pre ++ " OFFSET 0 ROWS FETCH NEXT " ++ toString (limit.getD 0) ++ " ROWS ONLY")
    else if truthyNum offset then
      .ok (pre ++ " OFFSET " ++ toString (offset.getD 0) ++ " ROWS")
    else .ok ""
  else if d.isMysqlDriver || d = .sap then
    if truthyNum limit && truthyNum offset then
      .ok (" LIMIT " ++ toString (limit.getD 0) ++ " OFFSET " ++ toString (offset.getD 0))
    else if truthyNum limit then
      .ok (" LIMIT " ++ toString (limit.getD 0))
    else if truthyNum offset then
      .error .offsetWithoutLimitNotSupported
    else .ok ""
  else if d = .sqlite then
    if truthyNum limit && truthyNum offset then
      .ok (" LIMIT " ++ toString (limit.getD 0) ++ " OFFSET " ++ toString (offset.getD 0))
    else if truthyNum limit then
      .ok (" LIMIT " ++ toString (limit.getD 0))
    else if truthyNum offset then
      .ok (" LIMIT -1 OFFSET " ++ toString (offset.getD 0))
    else .ok ""
  else if d = .oracle then
    if truthyNum limit && truthyNum offset then
      .ok (" OFFSET " ++ toString (offset.getD 0) ++ " ROWS FETCH NEXT " ++
        toString (limit.getD 0) ++ " ROWS ONLY")
    else if truthyNum limit then
      .ok (" FETCH NEXT " ++ toString (limit.getD 0) ++ " ROWS ONLY")
    else if truthyNum offset then
      .ok (" OFFSET " ++ toString (offset.getD 0) ++ " ROWS")
    else .ok ""
  else
    if truthyNum limit && truthyNum offset then
      .ok (" LIMIT " ++ toString (limit.getD 0) ++ " OFFSET " ++ toString (offset.getD 0))
    else if truthyNum limit then
      .ok (" LIMIT " ++ toString (limit.getD 0))
    else if truthyNum offset then
      .ok (" OFFSET " ++ toString (offset.getD 0))
    else .ok ""

/-- having (lines 791-795): pushes a "simple" entry (and never clears the
existing list, although its doc comment says it overrides prior conditions). -/
def having (m : ExprMap) (condition : String) : ExprMap :=
  { m with havings := m.havings ++ [{ type := .simple, condition := condition }] }

/-- andHaving (lines 801-805): pushes an "and" entry. -/
def andHaving (m : ExprMap) (condition : String) : ExprMap :=
  { m with havings := m.havings ++ [{ type := .and_, condition := condition }] }

/-- orHaving (lines 811-815): pushes an "or" entry. -/
def orHaving (m : ExprMap) (condition : String) : ExprMap :=
  { m with havings := m.havings ++ [{ type := .or_, condition := condition }] }

/-- The collaborator functions and driver capabilities consulted by the clause
compilers.  escape, replacePropertyNames and getTableName live in the base
class QueryBuilder; DriverUtils.buildAlias and the spatial capabilities live
in the driver sources — none of them are part of this source file. -/
structure Ctx where
  dialect : Dialect
  esc : String → String := id
  rpn : String → String := id
  tableName : String → String := id
  buildAlias : String → String → String := fun a c => a ++ "_" ++ c
  spatialTypes : List String := []
  legacySpatialSupport : Bool := false

/-- computeCountExpression (lines 1838-1902). -/
def computeCountExpression (ctx : Ctx) (m : ExprMap) : Except QBError String :=
  match m.mainAlias with
  | none => .error (.typeOrmError "main alias is not set")
  | some mainAliasObj =>
    match mainAliasObj.metadata with
    | none => .error .aliasMetadataNotSet
    | some metadata =>
      let mainAlias := mainAliasObj.name
      let primaryColumns := metadata.primaryColumns
      let distinctAlias := ctx.esc mainAlias
      if m.joinAttributes.length == 0 &&
          m.relationIdAttributes.length == 0 &&
          m.relationCountAttributes.length == 0 then
        .ok "COUNT(1)"
      else if ctx.dialect = .cockroach || ctx.dialect = .postgres then
        .ok ("COUNT(DISTINCT(" ++
          String.intercalate ", "
            (primaryColumns.map fun c => distinctAlias ++ "." ++ ctx.esc c.databaseName) ++
          "))")
      else if ctx.dialect.isMysqlDriver then
        .ok ("COUNT(DISTINCT " ++
          String.intercalate ", "
            (primaryColumns.map fun c => distinctAlias ++ "." ++ ctx.esc c.databaseName) ++
          ")")
      else if ctx.dialect = .sqlserver then
        let columnsExpression :=
          String.intercalate ", \x27|;|\x27, "
            (primaryColumns.map fun c => distinctAlias ++ "." ++ ctx.esc c.databaseName)
        if primaryColumns.length == 1 then
          .ok ("COUNT(DISTINCT(" ++ columnsExpression ++ "))")
        else
          .ok ("COUNT(DISTINCT(CONCAT(" ++ columnsExpression ++ ")))")
      else
        .ok ("COUNT(DISTINCT(" ++
          String.intercalate " || \x27|;|\x27 || "
            (primaryColumns.map fun c => distinctAlias ++ "." ++ ctx.esc c.databaseName) ++
          "))")

/-- createHavingExpression (lines 1762-1777): each entry after the first is
prefixed by its AND/OR combinator; a "simple" entry is never prefixed, at any
position. -/
def createHavingExpression (ctx : Ctx) (m : ExprMap) : String :=
  if m.havings.isEmpty then ""
  else
    let conditions :=
      String.intercalate " " (m.havings.enum.map fun ih =>
        match ih.2.type with
        | .and_ => (if ih.1 > 0 then "AND " else "") ++ ctx.rpn ih.2.condition
        | .or_ => (if ih.1 > 0 then "OR " else "") ++ ctx.rpn ih.2.condition
        | .simple => ctx.rpn ih.2.condition)
    if conditions.isEmpty then "" else " HAVING " ++ conditions

/-- createGroupByExpression (lines 1584-1587). -/
def createGroupByExpression (ctx : Ctx) (m : ExprMap) : String :=
  if m.groupBys.isEmpty then ""
  else " GROUP BY " ++ ctx.rpn (String.intercalate ", " m.groupBys)

/-- createOrderByExpression (lines 1592-1606). -/
def createOrderByExpression (ctx : Ctx) (m : ExprMap) : String :=
  if m.allOrderBys.length > 0 then
    " ORDER BY " ++ String.intercalate ", " (m.allOrderBys.map fun kv =>
      match kv.2 with
      | .str s => ctx.rpn kv.1 ++ " " ++ s
      | .obj order nulls => ctx.rpn kv.1 ++ " " ++ order ++ " " ++ nulls)
  else ""

/-- createLockExpression (lines 1681-1757). -/
def createLockExpression (ctx : Ctx) (m : ExprMap) : Except QBError String := do
  let lockTablesClause ←
    match m.lockTables with
    | none => pure ""
    | some ts =>
      if ctx.dialect ≠ .postgres then
        Except.error (.typeOrmError "Lock tables not supported in selected driver")
      else if ts.length < 1 then
        Except.error (.typeOrmError "lockTables cannot be an empty array")
      else pure (" OF " ++ String.intercalate ", " ts)
  match m.lockMode with
  | some .pessimisticRead =>
    if ctx.dialect.isMysqlDriver then pure " LOCK IN SHARE MODE"
    else if ctx.dialect = .postgres then pure (" FOR SHARE" ++ lockTablesClause)
    else if ctx.dialect = .oracle then pure " FOR UPDATE"
    else if ctx.dialect = .sqlserver then pure ""
    else Except.error .lockNotSupportedOnGivenDriver
  | some .pessimisticWrite =>
    if ctx.dialect.isMysqlDriver || ctx.dialect = .oracle then pure " FOR UPDATE"
    else if ctx.dialect = .postgres then pure (" FOR UPDATE" ++ lockTablesClause)
    else if ctx.dialect = .sqlserver then pure ""
    else Except.error .lockNotSupportedOnGivenDriver
  | some .pessimisticPartialWrite =>
    if ctx.dialect = .postgres then pure (" FOR UPDATE" ++ lockTablesClause ++ " SKIP LOCKED")
    else if ctx.dialect.isMysqlDriver then pure " FOR UPDATE SKIP LOCKED"
    else Except.error .lockNotSupportedOnGivenDriver
  | some .pessimisticWriteOrFail =>
    if ctx.dialect = .postgres then pure (" FOR UPDATE" ++ lockTablesClause ++ " NOWAIT")
    else if ctx.dialect.isMysqlDriver then pure " FOR UPDATE NOWAIT"
    else Except.error .lockNotSupportedOnGivenDriver
  | some .forNoKeyUpdate =>
    if ctx.dialect = .postgres then pure (" FOR NO KEY UPDATE" ++ lockTablesClause)
    else Except.error .lockNotSupportedOnGivenDriver
  | _ => pure ""

/-- buildEscapedEntityColumnSelects (lines 1779-1826).  `indexOf` identity
tests on column objects become value equality (metadata columns are
distinct records in practice). -/
def buildEscapedEntityColumnSelects (ctx : Ctx) (m : ExprMap) (aliasName : String)
    (metadata : Metadata) : List SelectItem :=
  let hasMainAlias := m.selects.any fun s => s.selection == aliasName
  let columns :=
    (if hasMainAlias then metadata.columns.filter (fun c => c.isSelect == true) else []) ++
    metadata.columns.filter (fun column =>
      m.selects.any fun s => s.selection == aliasName ++ "." ++ column.propertyPath)
  if columns.length == 0 then []
  else
    let nonSelectedPrimaryColumns :=
      if m.queryEntity then metadata.primaryColumns.filter (fun pc => !columns.contains pc)
      else []
    let allColumns := columns ++ nonSelectedPrimaryColumns
    allColumns.map fun column =>
      let selection := m.selects.find? fun s =>
        s.selection == aliasName ++ "." ++ column.propertyPath
      let path0 := ctx.esc aliasName ++ "." ++ ctx.esc column.databaseName
      let selectionPath :=
        if ctx.spatialTypes.contains column.typ then
          if ctx.dialect.isMysqlDriver then
            (if ctx.legacySpatialSupport then "AsText" else "ST_AsText") ++
              "(" ++ path0 ++ ")"
          else if ctx.dialect = .postgres then
            match column.precision with
            | some p => "ST_AsGeoJSON(" ++ path0 ++ ", " ++ toString p ++ ")::json"
            | none => "ST_AsGeoJSON(" ++ path0 ++ ")::json"
          else if ctx.dialect = .sqlserver then path0 ++ ".ToString()"
          else path0
        else path0
      { selection := selectionPath
        aliasName := some (match selection with
          | some sel =>
            match sel.aliasName with
            | some an => if an != "" then an else ctx.buildAlias aliasName column.databaseName
            | none => ctx.buildAlias aliasName column.databaseName
          | none => ctx.buildAlias aliasName column.databaseName)
        virtual := some (match selection with
          | some sel => sel.virtual == some true
          | none => !hasMainAlias) }

/-- findEntityColumnSelects (lines 1828-1836). -/
def findEntityColumnSelects (m : ExprMap) (aliasName : String)
    (metadata : Metadata) : List SelectItem :=
  match m.selects.find? (fun s => s.selection == aliasName) with
  | some mainSelect => [mainSelect]
  | none =>
    m.selects.filter fun s =>
      metadata.columns.any fun column => s.selection == aliasName ++ "." ++ column.propertyPath

/-- createSelectDistinctExpression (lines 1464-1487). -/
def createSelectDistinctExpression (ctx : Ctx) (m : ExprMap) : String :=
  let base :=
    if m.maxExecutionTime > 0 && ctx.dialect.isMysqlDriver then
      "SELECT \x2f*+ MAX_EXECUTION_TIME(" ++ toString m.maxExecutionTime ++ ") *\x2f "
    else "SELECT "
  if ctx.dialect = .postgres && m.selectDistinctOn.length > 0 then
    "SELECT DISTINCT ON (" ++
      String.intercalate ", " (m.selectDistinctOn.map ctx.rpn) ++ ") "
  else if m.selectDistinct then "SELECT DISTINCT "
  else base

/-- The join expression of a single JoinAttribute (body of the map inside
createJoinExpression, lines 1502-1575). -/
def joinExprOf (ctx : Ctx) (joinAttr : JoinAttr) : String :=
  let destinationTableName := joinAttr.tablePath
  let destinationTableAlias := joinAttr.aliasName
  let appendedCondition :=
    if truthyStr joinAttr.condition then " AND (" ++ joinAttr.condition.getD "" ++ ")" else ""
  if !truthyStr joinAttr.parentAlias || joinAttr.relation.isNone then
    let destinationJoin :=
      if truthyStr joinAttr.aliasSubQuery then joinAttr.aliasSubQuery.getD ""
      else ctx.tableName destinationTableName
    " " ++ joinAttr.direction ++ " JOIN " ++ destinationJoin ++ " " ++
      ctx.esc destinationTableAlias ++
      (if truthyStr joinAttr.condition then " ON " ++ ctx.rpn (joinAttr.condition.getD "")
       else "")
  else
    let parentAlias := joinAttr.parentAlias.getD ""
    let relation := joinAttr.relation.getD { kind := .manyToOne }
    match relation.kind with
    | .manyToOne | .oneToOneOwner =>
      let condition := String.intercalate " AND " (relation.joinColumns.map fun joinColumn =>
        destinationTableAlias ++ "." ++ joinColumn.referencedColumnPropertyPath ++ "=" ++
          parentAlias ++ "." ++ relation.propertyPath ++ "." ++
          joinColumn.referencedColumnPropertyPath)
      " " ++ joinAttr.direction ++ " JOIN " ++ ctx.tableName destinationTableName ++ " " ++
        ctx.esc destinationTableAlias ++ " ON " ++ ctx.rpn (condition ++ appendedCondition)
    | .oneToMany | .oneToOneNotOwner =>
      let disc :=
        if relation.inverseEntityIsChildWithDiscriminator then
          " AND " ++ destinationTableAlias ++ "." ++ relation.discriminatorDatabaseName ++
            "=\x27" ++ relation.discriminatorValue ++ "\x27"
        else ""
      let appendedCondition :=
        appendedCondition ++ String.join (relation.inverseRelationJoinColumns.map fun _ => disc)
      let condition :=
        String.intercalate " AND " (relation.inverseRelationJoinColumns.map fun joinColumn =>
          destinationTableAlias ++ "." ++ relation.inverseRelationPropertyPath ++ "." ++
            joinColumn.referencedColumnPropertyPath ++ "=" ++
            parentAlias ++ "." ++ joinColumn.referencedColumnPropertyPath)
      " " ++ joinAttr.direction ++ " JOIN " ++ ctx.tableName destinationTableName ++ " " ++
        ctx.esc destinationTableAlias ++ " ON " ++ ctx.rpn (condition ++ appendedCondition)
    | .manyToMany =>
      let junctionTableName := relation.junctionTablePath
      let junctionAlias := joinAttr.junctionAlias
      let junctionCondition :=
        if relation.isOwning then
          String.intercalate " AND " (relation.joinColumns.map fun joinColumn =>
            junctionAlias ++ "." ++ joinColumn.propertyPath ++ "=" ++
              parentAlias ++ "." ++ joinColumn.referencedColumnPropertyPath)
        else
          String.intercalate " AND "
            (relation.inverseRelationInverseJoinColumns.map fun joinColumn =>
              junctionAlias ++ "." ++ joinColumn.propertyPath ++ "=" ++
                parentAlias ++ "." ++ joinColumn.referencedColumnPropertyPath)
      let destinationCondition :=
        if relation.isOwning then
          String.intercalate " AND " (relation.inverseJoinColumns.map fun joinColumn =>
            destinationTableAlias ++ "." ++ joinColumn.referencedColumnPropertyPath ++ "=" ++
              junctionAlias ++ "." ++ joinColumn.propertyPath)
        else
          String.intercalate " AND " (relation.inverseRelationJoinColumns.map fun joinColumn =>
            destinationTableAlias ++ "." ++ joinColumn.referencedColumnPropertyPath ++ "=" ++
              junctionAlias ++ "." ++ joinColumn.propertyPath)
      " " ++ joinAttr.direction ++ " JOIN " ++ ctx.tableName junctionTableName ++ " " ++
        ctx.esc junctionAlias ++ " ON " ++ ctx.rpn junctionCondition ++
        " " ++ joinAttr.direction ++ " JOIN " ++ ctx.tableName destinationTableName ++ " " ++
        ctx.esc destinationTableAlias ++ " ON " ++
        ctx.rpn (destinationCondition ++ appendedCondition)

/-- createJoinExpression (lines 1492-1579). -/
def createJoinExpression (ctx : Ctx) (m : ExprMap) : String :=
  String.intercalate " " (m.joinAttributes.map fun joinAttr => joinExprOf ctx joinAttr)

/-- createSelectExpression (lines 1389-1459). -/
def createSelectExpression (ctx : Ctx) (m : ExprMap) : Except QBError String :=
  match m.mainAlias with
  | none =>
    .error (.typeOrmError "Cannot build query because main alias is not set (call qb#from method)")
  | some mainAlias =>
    let fromPair :=
      match mainAlias.metadata with
      | some metadata =>
        (buildEscapedEntityColumnSelects ctx m mainAlias.name metadata,
         findEntityColumnSelects m mainAlias.name metadata)
      | none => ([], [])
    let joinPairs := m.joinAttributes.map fun join =>
      match join.metadata with
      | some md =>
        (buildEscapedEntityColumnSelects ctx m join.aliasName md,
         findEntityColumnSelects m join.aliasName md)
      | none =>
        if m.selects.any (fun s => s.selection == join.aliasName) then
          ([({ selection := ctx.esc join.aliasName ++ ".*" } : SelectItem)],
           (m.selects.find? fun s => s.selection == join.aliasName).toList)
        else ([], [])
    let excludedSelects := fromPair.2 ++ (joinPairs.map Prod.snd).flatten
    let allSelects :=
      fromPair.1 ++ (joinPairs.map Prod.fst).flatten ++
        (m.selects.filter fun s => !excludedSelects.contains s).map
          (fun s => { selection := ctx.rpn s.selection, aliasName := s.aliasName })
    let allSelects :=
      if allSelects.isEmpty then [({ selection := "*" } : SelectItem)] else allSelects
    let lock :=
      if ctx.dialect = .sqlserver then
        match m.lockMode with
        | some .pessimisticRead => " WITH (HOLDLOCK, ROWLOCK)"
        | some .pessimisticWrite => " WITH (UPDLOCK, ROWLOCK)"
        | some .dirtyRead => " WITH (NOLOCK)"
        | _ => ""
      else ""
    let froms :=
      (m.aliases.filter fun a =>
          a.type == AliasType.fromType && (truthyStr a.tablePath || truthyStr a.subQuery)).map
        fun a =>
          if truthyStr a.subQuery then a.subQuery.getD "" ++ " " ++ ctx.esc a.name
          else ctx.tableName (a.tablePath.getD "") ++ " " ++ ctx.esc a.name
    let select := createSelectDistinctExpression ctx m
    let selection := String.intercalate ", " (allSelects.map fun s =>
      s.selection ++
        (if truthyStr s.aliasName then " AS " ++ ctx.esc (s.aliasName.getD "") else ""))
    .ok (select ++ selection ++ " FROM " ++ String.intercalate ", " froms ++ lock)

/-- getQuery (lines 55-69).  createComment and createWhereExpression belong to
the base class QueryBuilder (outside this source file); their outputs are the
commentExpr and whereExpr inputs. -/
def getQuery (ctx : Ctx) (commentExpr whereExpr : String) (m : ExprMap) :
    Except QBError String := do
  let selectExpr ← createSelectExpression ctx m
  let sql := commentExpr ++ selectExpr ++ createJoinExpression ctx m ++ whereExpr ++
    createGroupByExpression ctx m ++ createHavingExpression ctx m ++
    createOrderByExpression ctx m
  let limitOffsetExpr ← createLimitOffsetExpression ctx.dialect m
  let lockExpr ← createLockExpression ctx m
  let sql := (sql ++ limitOffsetExpr ++ lockExpr).trim
  pure (if m.subQuery then "(" ++ sql ++ ")" else sql)

/-- A cache entry as seen through the result-cache collaborator: whether
queryResultCache.isExpired holds of it, and the deserialized row set. -/
structure CacheEntry (Row : Type) where
  expired : Bool
  result : List Row
deriving DecidableEq, Repr

/-- The execution collaborators: the query runner / driver, the hydration
pipeline and the result-cache store, with driver round trips indexed by the
order in which this builder issues them. -/
structure ExecEnv (Row Entity : Type) where
  isTransactionActive : Bool := false
  runQuery : Nat → List Row
  transform : List Row → List Entity
  cntOf : Row → Option Nat := fun _ => none
  versionOf : Entity → Int := fun _ => 0
  updateDateOf : Entity → Int := fun _ => 0
  hasQueryResultCache : Bool := false
  cacheAlwaysEnabled : Bool := false
  cacheIgnoreErrors : Bool := false
  cacheGet : Nat → Except Unit (Option (CacheEntry Row)) := fun _ => .ok none
  cacheStore : Nat → Except Unit Unit := fun _ => .ok ()

/-- The driver-query-and-store tail of loadRawResults (lines 2118-2136): run
the query, then store into the cache when caching is active and no read error
was swallowed; a store error propagates only when ignoreErrors is unset.
The Bool of the result records that the driver query was executed. -/
def runAndStore {Row Entity : Type} (m : ExprMap) (env : ExecEnv Row Entity) (qIdx : Nat)
    (cacheActive cacheErrorFlag : Bool) : Except QBError (List Row × Bool) :=
  let results := env.runQuery qIdx
  if !cacheErrorFlag && cacheActive then
    match env.cacheStore qIdx with
    | .ok _ => .ok (results, true)
    | .error _ =>
      if !env.cacheIgnoreErrors then .error .cacheError else .ok (results, true)
  else .ok (results, true)

/-- The caching-active test of loadRawResults (line 2100):
connection.queryResultCache exists and the model requests caching or the
connection cache is alwaysEnabled. -/
def cacheActiveFor {Row Entity : Type} (m : ExprMap) (env : ExecEnv Row Entity) : Bool :=
  env.hasQueryResultCache && (m.cache || env.cacheAlwaysEnabled)

/-- loadRawResults (lines 2094-2137): consult the cache first; a fresh hit
short-circuits the driver; a read error propagates unless ignoreErrors, in
which case the driver runs and the store phase is skipped. -/
def loadRawResults {Row Entity : Type} (m : ExprMap) (env : ExecEnv Row Entity) (qIdx : Nat) :
    Except QBError (List Row × Bool) :=
  if cacheActiveFor m env then
    match env.cacheGet qIdx with
    | .ok (some saved) =>
      if !saved.expired then .ok (saved.result, false)
      else runAndStore m env qIdx (cacheActiveFor m env) false
    | .ok none => runAndStore m env qIdx (cacheActiveFor m env) false
    | .error _ =>
      if !env.cacheIgnoreErrors then .error .cacheError
      else runAndStore m env qIdx (cacheActiveFor m env) true
  else runAndStore m env qIdx (cacheActiveFor m env) false

/-- True for the five pessimistic lock modes listed in the transaction guard
of executeEntitiesAndRawResults (line 1932). -/
def isPessimisticLockMode : Option LockMode → Bool
  | some .pessimisticRead => true
  | some .pessimisticWrite => true
  | some .pessimisticPartialWrite => true
  | some .pessimisticWriteOrFail => true
  | some .forNoKeyUpdate => true
  | _ => false

/-- The optimistic-lock schema guard of executeEntitiesAndRawResults
(lines 1935-1939): an optimistic lock needs a version or update-date column. -/
def optimisticGate (m : ExprMap) (mainAlias : Alias) : Except QBError Unit :=
  if m.lockMode = some .optimistic then
    match mainAlias.metadata with
    | none => .error .aliasMetadataNotSet
    | some metadata =>
      if !metadata.hasVersionColumn && !metadata.hasUpdateDateColumn then
        .error (.noVersionOrUpdateDateColumn metadata.name)
      else .ok ()
  else .ok ()

/-- Which round trips executeEntitiesAndRawResults performed: the distinct
primary-key id-window query of the two-phase pagination strategy, and the
main (fully joined) query. -/
inductive QueryPhase
  | idsQuery
  | mainQuery
deriving DecidableEq, Repr

/-- What executeEntitiesAndRawResults returns, together with the round trips
it performed, in order. -/
structure ExecResult (Row Entity : Type) where
  raw : List Row
  entities : List Entity
  phases : List QueryPhase
deriving DecidableEq, Repr

/-- entities are produced from the raw rows only when some raw row exists
(lines 2028-2040); the hydration pipeline is the transform collaborator. -/
def transformIfAny {Row Entity : Type} (env : ExecEnv Row Entity)
    (rawResults : List Row) : List Entity :=
  if 0 < rawResults.length then env.transform rawResults else []

/-- executeEntitiesAndRawResults (lines 1927-2046): guards first; then, when
skip or take is truthy and at least one join exists, the two-phase strategy
runs the id-window query and, only when it returned rows, the full query;
otherwise a single query runs. -/
def executeEntitiesAndRawResults {Row Entity : Type} (m : ExprMap)
    (env : ExecEnv Row Entity) : Except QBError (ExecResult Row Entity) :=
  match m.mainAlias with
  | none => .error (.typeOrmError "Alias is not set. Use from method to set an alias.")
  | some mainAlias =>
    if isPessimisticLockMode m.lockMode && !env.isTransactionActive then
      .error .pessimisticLockTransactionRequired
    else
      match optimisticGate m mainAlias with
      | .error e => .error e
      | .ok _ =>
        if (truthyNum m.skip || truthyNum m.take) && m.joinAttributes.length > 0 then
          match loadRawResults m env 0 with
          | .error e => .error e
          | .ok (rawResults, _) =>
            if 0 < rawResults.length then
              match loadRawResults m env 1 with
              | .error e => .error e
              | .ok (raw2, _) =>
                .ok { raw := raw2, entities := transformIfAny env raw2,
                      phases := [.idsQuery, .mainQuery] }
            else
              .ok { raw := rawResults, entities := [], phases := [.idsQuery] }
        else
          match loadRawResults m env 0 with
          | .error e => .error e
          | .ok (rawResults, _) =>
            .ok { raw := rawResults, entities := transformIfAny env rawResults,
                  phases := [.mainQuery] }

/-- executeCountQuery (lines 1904-1922): compile the count expression, run it
through loadRawResults on the cloned builder, and read the "cnt" column of
the first row (0 when absent or falsy — the cntOf collaborator models
parseInt on a truthy value). -/
def executeCountQuery {Row Entity : Type} (ctx : Ctx) (m : ExprMap)
    (env : ExecEnv Row Entity) (qIdx : Nat) : Except QBError Nat :=
  match computeCountExpression ctx m with
  | .error e => .error e
  | .ok _ =>
    match loadRawResults m env qIdx with
    | .error e => .error e
    | .ok (results, _) =>
      match results.head? with
      | none => .ok 0
      | some r =>
        match env.cntOf r with
        | none => .ok 0
        | some n => .ok n

/-- getRawMany (lines 1008-1047): rejects optimistic locking before touching
the query runner, then loads raw rows. -/
def getRawMany {Row Entity : Type} (m : ExprMap) (env : ExecEnv Row Entity) :
    Except QBError (List Row) :=
  if m.lockMode = some .optimistic then .error .optimisticLockCanNotBeUsed
  else
    match loadRawResults m env 0 with
    | .error e => .error e
    | .ok (rows, _) => .ok rows

/-- getMany (lines 1130-1136): rejects optimistic locking, then returns the
entities of getRawAndEntities. -/
def getMany {Row Entity : Type} (m : ExprMap) (env : ExecEnv Row Entity) :
    Except QBError (List Entity) :=
  if m.lockMode = some .optimistic then .error .optimisticLockCanNotBeUsed
  else
    match executeEntitiesAndRawResults m env with
    | .error e => .error e
    | .ok r => .ok r.entities

/-- getCount (lines 1142-1180): rejects optimistic locking, then runs the
count query. -/
def getCount {Row Entity : Type} (ctx : Ctx) (m : ExprMap) (env : ExecEnv Row Entity) :
    Except QBError Nat :=
  if m.lockMode = some .optimistic then .error .optimisticLockCanNotBeUsed
  else executeCountQuery ctx m env 0

/-- getManyAndCount (lines 1186-1231): rejects optimistic locking, runs the
entities query, suffixes a truthy cache id with "-count", and runs the count
query. -/
def getManyAndCount {Row Entity : Type} (ctx : Ctx) (m : ExprMap)
    (env : ExecEnv Row Entity) : Except QBError (List Entity × Nat) :=
  if m.lockMode = some .optimistic then .error .optimisticLockCanNotBeUsed
  else
    match executeEntitiesAndRawResults m env with
    | .error e => .error e
    | .ok r =>
      let mCount := { m with cacheId :=
        match m.cacheId with
        | some cid => if cid != "" then some (cid ++ "-count") else some cid
        | none => none }
      match executeCountQuery ctx mCount env r.phases.length with
      | .error e => .error e
      | .ok n => .ok (r.entities, n)

/-- getOne (lines 1092-1112): first entity of getRawAndEntities; the
optimistic version check runs only when an entity was found, the lock mode is
optimistic and the stored lock version is truthy.  The versionOf/updateDateOf
collaborators model getEntityValue of the version/update-date columns. -/
def getOne {Row Entity : Type} (m : ExprMap) (env : ExecEnv Row Entity) :
    Except QBError (Option Entity) :=
  match executeEntitiesAndRawResults m env with
  | .error e => .error e
  | .ok results =>
    match results.entities.head? with
    | none => .ok none
    | some result =>
      if m.lockMode = some .optimistic && truthyLockVersion m.lockVersion then
        match m.mainAlias with
        | none => .error (.typeOrmError "main alias is not set")
        | some mainAlias =>
          match mainAlias.metadata with
          | none => .error .aliasMetadataNotSet
          | some metadata =>
            match m.lockVersion with
            | some (.date time) =>
              if !metadata.hasUpdateDateColumn then
                .error (.typeOrmError "TypeError: updateDateColumn is undefined")
              else if env.updateDateOf result != time then
                .error .optimisticLockVersionMismatch
              else .ok (some result)
            | some (.num v) =>
              if !metadata.hasVersionColumn then
                .error (.typeOrmError "TypeError: versionColumn is undefined")
              else if env.versionOf result != v then
                .error .optimisticLockVersionMismatch
              else .ok (some result)
            | none => .ok (some result)
      else .ok (some result)

/-! Concrete sample data used to evaluate the definitions on closed inputs. -/

/-- A single integer primary-key column. -/
def sampleColumn : ColumnMeta :=
  { propertyPath := "id", databaseName := "id", isPrimary := true }

/-- Entity metadata with one primary column and a version column. -/
def sampleMeta : Metadata :=
  { name := "User", columns := [sampleColumn], hasVersionColumn := true }

/-- A main alias backed by sampleMeta. -/
def sampleAlias : Alias :=
  { name := "user", tablePath := some "user", metadata := some sampleMeta }

/-- A direct (relation-less) join attribute. -/
def sampleJoin : JoinAttr :=
  { aliasName := "photo", tablePath := "photo" }

/-- A model with a metadata-backed main alias and one join. -/
def sampleModel : ExprMap :=
  { mainAlias := some sampleAlias, joinAttributes := [sampleJoin] }

/-- A metadata-less from alias (raw table). -/
def sampleFromAlias : Alias :=
  { name := "user", tablePath := some "user" }

/-- A raw-table model selecting one expression. -/
def sampleFromModel : ExprMap :=
  { mainAlias := some sampleFromAlias, aliases := [sampleFromAlias],
    selects := [{ selection := "user.id" }] }

/-- A model requesting optimistic locking. -/
def sampleOptimisticModel : ExprMap :=
  { mainAlias := some sampleAlias, lockMode := some .optimistic }

/-- A model requesting a pessimistic write lock. -/
def samplePessimisticModel : ExprMap :=
  { mainAlias := some sampleAlias, lockMode := some .pessimisticWrite }

/-- A model with skip/take intent pagination and one join. -/
def samplePagedModel : ExprMap :=
  { mainAlias := some sampleAlias, skip := some 10, take := some 5,
    joinAttributes := [sampleJoin] }

/-- A model with no lock configuration. -/
def sampleNoLockModel : ExprMap :=
  { mainAlias := some sampleAlias }

/-- A cache-enabled model. -/
def sampleCacheModel : ExprMap :=
  { mainAlias := some sampleAlias, cache := true }

/-- A driver environment whose every round trip returns no rows. -/
def sampleEnv : ExecEnv Nat Nat :=
  { runQuery := fun _ => [], transform := fun rs => rs }

/-- A cache-enabled environment whose cache reads always fail and whose
policy ignores cache errors. -/
def sampleCacheEnv : ExecEnv Nat Nat :=
  { runQuery := fun _ => [5], transform := fun rs => rs,
    hasQueryResultCache := true, cacheIgnoreErrors := true,
    cacheGet := fun _ => .error () }

/-! Theorems settling the claims. -/

/-- C4: for every dialect, a model with limit=5 and offset=0 compiles to
exactly the same limit/offset clause as the same model with limit=5 and
offset unset — no OFFSET 0 is ever emitted. -/
theorem claim4_offset_zero_equals_offset_unset (d : Dialect) (m : ExprMap) :
    createLimitOffsetExpression d { m with limit := some 5, offset := some 0 } =
    createLimitOffsetExpression d { m with limit := some 5, offset := none } := by
  cases d <;> simp [createLimitOffsetExpression, truthyNum, Dialect.isMysqlDriver]

/-- C3: with a positive offset and no limit, compiling the limit/offset
clause on the MySQL family (MySQL, Aurora Data API, SAP) raises the
offset-without-limit error, while every other dialect produces a clause
containing that offset; SQLite renders it as LIMIT -1 OFFSET m. -/
theorem claim3_offset_without_limit (m : ExprMap) (k : Nat) (hk : 0 < k)
    (hoff : m.offset = some k) (hlim : m.limit = none) :
    (∀ d : Dialect, d = .mysql ∨ d = .auroraDataApi ∨ d = .sap →
      createLimitOffsetExpression d m = .error .offsetWithoutLimitNotSupported) ∧
    (∀ d : Dialect, d ≠ .mysql → d ≠ .auroraDataApi → d ≠ .sap →
      ∃ s, createLimitOffsetExpression d m = .ok s ∧
        ∃ pre post, s = pre ++ toString k ++ post) ∧
    createLimitOffsetExpression .sqlite m = .ok (" LIMIT -1 OFFSET " ++ toString k) := by
  have hk0 : k ≠ 0 := Nat.pos_iff_ne_zero.mp hk
  refine ⟨?_, ?_, ?_⟩
  · rintro d (rfl | rfl | rfl) <;>
      simp [createLimitOffsetExpression, hoff, hlim, truthyNum, hk0, Dialect.isMysqlDriver]
  · intro d h1 h2 h3
    cases d
    case mysql => exact absurd rfl h1
    case auroraDataApi => exact absurd rfl h2
    case sap => exact absurd rfl h3
    case sqlserver =>
      refine ⟨_, ?_, (if m.allOrderBys.length == 0 then " ORDER BY (SELECT NULL)" else "") ++
        " OFFSET ", " ROWS", rfl⟩
      simp [createLimitOffsetExpression, hoff, hlim, truthyNum, hk0]
    case sqlite =>
      refine ⟨" LIMIT -1 OFFSET " ++ toString k, ?_, " LIMIT -1 OFFSET ", "", by simp⟩
      simp [createLimitOffsetExpression, hoff, hlim, truthyNum, hk0, Dialect.isMysqlDriver]
    case oracle =>
      refine ⟨" OFFSET " ++ toString k ++ " ROWS", ?_, " OFFSET ", " ROWS", rfl⟩
      simp [createLimitOffsetExpression, hoff, hlim, truthyNum, hk0, Dialect.isMysqlDriver]
    case postgres =>
      refine ⟨" OFFSET " ++ toString k, ?_, " OFFSET ", "", by simp⟩
      simp [createLimitOffsetExpression, hoff, hlim, truthyNum, hk0, Dialect.isMysqlDriver]
    case cockroach =>
      refine ⟨" OFFSET " ++ toString k, ?_, " OFFSET ", "", by simp⟩
      simp [createLimitOffsetExpression, hoff, hlim, truthyNum, hk0, Dialect.isMysqlDriver]
    case generic =>
      refine ⟨" OFFSET " ++ toString k, ?_, " OFFSET ", "", by simp⟩
      simp [createLimitOffsetExpression, hoff, hlim, truthyNum, hk0, Dialect.isMysqlDriver]
  · simp [createLimitOffsetExpression, hoff, hlim, truthyNum, hk0, Dialect.isMysqlDriver]

/-- C3 witness: the theorem applied at offset 7 with no limit. -/
theorem claim3_offset_without_limit_witness :
    createLimitOffsetExpression .mysql { offset := some 7 } =
      .error .offsetWithoutLimitNotSupported ∧
    createLimitOffsetExpression .sqlite { offset := some 7 } =
      .ok " LIMIT -1 OFFSET 7" := by
  have h := claim3_offset_without_limit { offset := some 7 } 7 (by decide) rfl rfl
  exact ⟨h.1 .mysql (Or.inl rfl), h.2.2⟩

/-- A string visibly longer than "COUNT(1)" is not "COUNT(1)". -/
theorem append3_ne_count1 (p t s : String) (hp : 8 < p.length + s.length) :
    p ++ t ++ s ≠ "COUNT(1)" := by
  intro h
  have hlen := congrArg String.length h
  have h8 : ("COUNT(1)" : String).length = 8 := rfl
  simp only [String.length_append, h8] at hlen
  omega

/-- C8 (code bug): having() pushes a "simple" entry without clearing the
existing havings although its doc comment promises to override them, so after
two having() calls a "simple" combinator sits at position 1 and the compiled
HAVING clause joins the two conditions with no AND/OR between them. -/
theorem claim8_having_simple_entry_not_first :
    (having (having ({} : ExprMap) "a") "b").havings =
      [{ type := .simple, condition := "a" }, { type := .simple, condition := "b" }] ∧
    (having (having ({} : ExprMap) "a") "b").havings.get? 1 =
      some { type := .simple, condition := "b" } ∧
    createHavingExpression { dialect := .generic } (having (having ({} : ExprMap) "a") "b") =
      " HAVING a b" := by
  refine ⟨rfl, rfl, rfl⟩

/-- C2: computeCountExpression returns COUNT(1) precisely when the model has
no joins, no relation-id attributes and no relation-count attributes; in
every other case it counts distinct primary keys — comma-separated DISTINCT
for Postgres/CockroachDB/MySQL, a CONCAT fallback for SQL Server, a
'||'-concatenation fallback elsewhere, and a single primary key is never
concatenated. -/
theorem claim2_count_expression_shape (ctx : Ctx) (m : ExprMap) (a : Alias) (md : Metadata)
    (ha : m.mainAlias = some a) (hmd : a.metadata = some md) :
    (computeCountExpression ctx m = .ok "COUNT(1)" ↔
      m.joinAttributes = [] ∧ m.relationIdAttributes = [] ∧
        m.relationCountAttributes = []) ∧
    (¬(m.joinAttributes = [] ∧ m.relationIdAttributes = [] ∧
        m.relationCountAttributes = []) →
      ((ctx.dialect = .cockroach ∨ ctx.dialect = .postgres) →
        computeCountExpression ctx m = .ok ("COUNT(DISTINCT(" ++
          String.intercalate ", " (md.primaryColumns.map fun c =>
            ctx.esc a.name ++ "." ++ ctx.esc c.databaseName) ++ "))")) ∧
      (ctx.dialect.isMysqlDriver = true →
        computeCountExpression ctx m = .ok ("COUNT(DISTINCT " ++
          String.intercalate ", " (md.primaryColumns.map fun c =>
            ctx.esc a.name ++ "." ++ ctx.esc c.databaseName) ++ ")")) ∧
      (ctx.dialect = .sqlserver → md.primaryColumns.length ≠ 1 →
        computeCountExpression ctx m = .ok ("COUNT(DISTINCT(CONCAT(" ++
          String.intercalate ", \x27|;|\x27, " (md.primaryColumns.map fun c =>
            ctx.esc a.name ++ "." ++ ctx.esc c.databaseName) ++ ")))")) ∧
      ((ctx.dialect = .sap ∨ ctx.dialect = .sqlite ∨ ctx.dialect = .oracle ∨
          ctx.dialect = .generic) →
        computeCountExpression ctx m = .ok ("COUNT(DISTINCT(" ++
          String.intercalate " || \x27|;|\x27 || " (md.primaryColumns.map fun c =>
            ctx.esc a.name ++ "." ++ ctx.esc c.databaseName) ++ "))")) ∧
      (∀ c, md.primaryColumns = [c] →
        computeCountExpression ctx m =
          .ok ("COUNT(DISTINCT(" ++ ctx.esc a.name ++ "." ++ ctx.esc c.databaseName ++ "))") ∨
        computeCountExpression ctx m =
          .ok ("COUNT(DISTINCT " ++ ctx.esc a.name ++ "." ++ ctx.esc c.databaseName ++ ")"))) := by
  have hfast :
      (m.joinAttributes.length == 0 && m.relationIdAttributes.length == 0 &&
        m.relationCountAttributes.length == 0) = true ↔
      (m.joinAttributes = [] ∧ m.relationIdAttributes = [] ∧
        m.relationCountAttributes = []) := by
    simp [List.length_eq_zero, and_assoc]
  by_cases hc : m.joinAttributes = [] ∧ m.relationIdAttributes = [] ∧
      m.relationCountAttributes = []
  · constructor
    · rw [iff_true_intro hc, iff_true]
      simp [computeCountExpression, ha, hmd, hfast.mpr hc]
    · exact fun h => absurd hc h
  · have hcond :
        (m.joinAttributes.length == 0 && m.relationIdAttributes.length == 0 &&
          m.relationCountAttributes.length == 0) = false := by
      cases h : (m.joinAttributes.length == 0 && m.relationIdAttributes.length == 0 &&
          m.relationCountAttributes.length == 0) with
      | false => rfl
      | true => exact absurd (hfast.mp h) hc
    have hbody : computeCountExpression ctx m =
        (if ctx.dialect = .cockroach || ctx.dialect = .postgres then
          .ok ("COUNT(DISTINCT(" ++
            String.intercalate ", " (md.primaryColumns.map fun c =>
              ctx.esc a.name ++ "." ++ ctx.esc c.databaseName) ++ "))")
        else if ctx.dialect.isMysqlDriver then
          .ok ("COUNT(DISTINCT " ++
            String.intercalate ", " (md.primaryColumns.map fun c =>
              ctx.esc a.name ++ "." ++ ctx.esc c.databaseName) ++ ")")
        else if ctx.dialect = .sqlserver then
          if md.primaryColumns.length == 1 then
            .ok ("COUNT(DISTINCT(" ++
              String.intercalate ", \x27|;|\x27, " (md.primaryColumns.map fun c =>
                ctx.esc a.name ++ "." ++ ctx.esc c.databaseName) ++ "))")
          else
            .ok ("COUNT(DISTINCT(CONCAT(" ++
              String.intercalate ", \x27|;|\x27, " (md.primaryColumns.map fun c =>
                ctx.esc a.name ++ "." ++ ctx.esc c.databaseName) ++ ")))")
        else
          .ok ("COUNT(DISTINCT(" ++
            String.intercalate " || \x27|;|\x27 || " (md.primaryColumns.map fun c =>
              ctx.esc a.name ++ "." ++ ctx.esc c.databaseName) ++ "))")) := by
      simp only [computeCountExpression, ha, hmd, hcond, Bool.false_eq_true, if_false]
    constructor
    · rw [iff_false_intro hc, iff_false]
      rw [hbody]
      split
      · intro h
        exact append3_ne_count1 _ _ _ (by decide) (Except.ok.inj h)
      · split
        · intro h
          exact append3_ne_count1 _ _ _ (by decide) (Except.ok.inj h)
        · split
          · split
            · intro h
              exact append3_ne_count1 _ _ _ (by decide) (Except.ok.inj h)
            · intro h
              exact append3_ne_count1 _ _ _ (by decide) (Except.ok.inj h)
          · intro h
            exact append3_ne_count1 _ _ _ (by decide) (Except.ok.inj h)
    · intro _
      refine ⟨?_, ?_, ?_, ?_, ?_⟩
      · rintro (hd | hd) <;> rw [hbody] <;> simp [hd, Dialect.isMysqlDriver]
      · intro hd
        rw [hbody]
        have h1 : ¬(ctx.dialect = .cockroach ∨ ctx.dialect = .postgres) := by
          rintro (h | h) <;> rw [h] at hd <;> simp [Dialect.isMysqlDriver] at hd
        simp only [decide_eq_true_eq] at *
        rw [if_neg (by simpa using h1), if_pos hd]
      · intro hd hlen
        rw [hbody]
        simp [hd, Dialect.isMysqlDriver, hlen]
      · rintro (hd | hd | hd | hd) <;> rw [hbody] <;>
          simp [hd, Dialect.isMysqlDriver]
      · intro c hcols
        rw [hbody, hcols]
        split
        · left; simp [String.intercalate, String.intercalate.go, String.append_assoc]
        · split
          · right; simp [String.intercalate, String.intercalate.go, String.append_assoc]
          · split
            · split
              · left; simp [String.intercalate, String.intercalate.go, String.append_assoc]
              · simp at *
            · left; simp [String.intercalate, String.intercalate.go, String.append_assoc]

/-- C2 witness: one join forces the distinct count of the single primary key
on the generic dialect, and dropping the join restores COUNT(1). -/
theorem claim2_count_expression_shape_witness :
    computeCountExpression { dialect := .generic } sampleModel =
      .ok "COUNT(DISTINCT(user.id))" ∧
    computeCountExpression { dialect := .generic } { sampleModel with joinAttributes := [] } =
      .ok "COUNT(1)" := by
  have h1 := claim2_count_expression_shape { dialect := .generic } sampleModel
    sampleAlias sampleMeta rfl rfl
  have h2 := claim2_count_expression_shape { dialect := .generic }
    { sampleModel with joinAttributes := [] } sampleAlias sampleMeta rfl rfl
  constructor
  · have hne : ¬(sampleModel.joinAttributes = [] ∧ sampleModel.relationIdAttributes = [] ∧
        sampleModel.relationCountAttributes = []) := by
      intro h
      exact absurd h.1 (by simp [sampleModel])
    have hx := ((h1.2 hne).2.2.2.2) sampleColumn rfl
    rcases hx with hx | hx
    · exact hx
    · exact absurd hx (by intro h; exact absurd (Except.ok.inj h) (by decide))
  · exact h2.1.mpr ⟨rfl, rfl, rfl⟩

/-- C6: every result-shape entry point that cannot version-check an entity
(getRawMany, getMany, getCount, getManyAndCount) rejects an optimistic lock
mode up front, for every driver environment — so before any query runs. -/
theorem claim6_optimistic_lock_rejected {Row Entity : Type} (ctx : Ctx) (m : ExprMap)
    (env : ExecEnv Row Entity) (h : m.lockMode = some .optimistic) :
    getRawMany m env = .error .optimisticLockCanNotBeUsed ∧
    getMany m env = .error .optimisticLockCanNotBeUsed ∧
    getCount ctx m env = .error .optimisticLockCanNotBeUsed ∧
    getManyAndCount ctx m env = .error .optimisticLockCanNotBeUsed := by
  refine ⟨?_, ?_, ?_, ?_⟩ <;>
    simp [getRawMany, getMany, getCount, getManyAndCount, h]

/-- C6 witness: the theorem applied to an optimistic-lock model. -/
theorem claim6_optimistic_lock_rejected_witness :
    sampleOptimisticModel.lockMode = some .optimistic ∧
    getRawMany sampleOptimisticModel sampleEnv = .error .optimisticLockCanNotBeUsed ∧
    getManyAndCount { dialect := .generic } sampleOptimisticModel sampleEnv =
      .error .optimisticLockCanNotBeUsed := by
  have h := claim6_optimistic_lock_rejected { dialect := .generic }
    sampleOptimisticModel sampleEnv rfl
  exact ⟨rfl, h.1, h.2.2.2⟩

/-- C7: with any of the five pessimistic lock modes and no active
transaction, executeEntitiesAndRawResults fails with
PessimisticLockTransactionRequiredError before any round trip. -/
theorem claim7_pessimistic_requires_transaction {Row Entity : Type} (m : ExprMap)
    (env : ExecEnv Row Entity) (a : Alias) (ha : m.mainAlias = some a)
    (hlock : m.lockMode = some .pessimisticRead ∨ m.lockMode = some .pessimisticWrite ∨
      m.lockMode = some .pessimisticPartialWrite ∨
      m.lockMode = some .pessimisticWriteOrFail ∨ m.lockMode = some .forNoKeyUpdate)
    (htx : env.isTransactionActive = false) :
    executeEntitiesAndRawResults m env = .error .pessimisticLockTransactionRequired := by
  have hb : isPessimisticLockMode m.lockMode = true := by
    rcases hlock with h | h | h | h | h <;> simp [h, isPessimisticLockMode]
  unfold executeEntitiesAndRawResults
  rw [ha]
  simp [hb, htx]

/-- C7 witness: the theorem applied to a pessimistic-write model outside a
transaction. -/
theorem claim7_pessimistic_requires_transaction_witness :
    executeEntitiesAndRawResults samplePessimisticModel sampleEnv =
      .error .pessimisticLockTransactionRequired :=
  claim7_pessimistic_requires_transaction samplePessimisticModel sampleEnv
    sampleAlias rfl (Or.inr (Or.inl rfl)) rfl

/-- C9: with caching active, a cache read error or a cache store error
propagates exactly when ignoreErrors is unset (the strict policy); under
ignoreErrors the driver query still executes and its rows are returned. -/
theorem claim9_cache_error_policy {Row Entity : Type} (m : ExprMap)
    (env : ExecEnv Row Entity) (i : Nat) (hc : env.hasQueryResultCache = true)
    (hcache : m.cache = true ∨ env.cacheAlwaysEnabled = true) :
    (∀ e, env.cacheGet i = .error e →
      loadRawResults m env i =
        (if env.cacheIgnoreErrors then .ok (env.runQuery i, true)
         else .error .cacheError)) ∧
    (env.cacheGet i = .ok none → ∀ e, env.cacheStore i = .error e →
      loadRawResults m env i =
        (if env.cacheIgnoreErrors then .ok (env.runQuery i, true)
         else .error .cacheError)) := by
  have hactive : cacheActiveFor m env = true := by
    rcases hcache with h | h <;> simp [cacheActiveFor, hc, h]
  constructor
  · intro e hget
    cases hig : env.cacheIgnoreErrors <;>
      simp [loadRawResults, runAndStore, hactive, hget, hig]
  · intro hget e hstore
    cases hig : env.cacheIgnoreErrors <;>
      simp [loadRawResults, runAndStore, hactive, hget, hstore, hig]

/-- C9 witness: a failing cache read under the ignore-errors policy still
returns the driver rows. -/
theorem claim9_cache_error_policy_witness :
    loadRawResults sampleCacheModel sampleCacheEnv 0 = .ok ([5], true) := by
  have h := (claim9_cache_error_policy sampleCacheModel sampleCacheEnv 0
    rfl (Or.inl rfl)).1 () rfl
  exact h

/-- Every error of runAndStore is the cache error. -/
theorem runAndStore_error_eq {Row Entity : Type} {m : ExprMap} {env : ExecEnv Row Entity}
    {qIdx : Nat} {ca cf : Bool} {e : QBError}
    (h : runAndStore m env qIdx ca cf = .error e) : e = .cacheError := by
  unfold runAndStore at h
  split at h
  · split at h
    · exact absurd h (by simp)
    · split at h
      · exact (Except.error.inj h).symm
      · exact absurd h (by simp)
  · exact absurd h (by simp)

/-- Every error of loadRawResults is the cache error. -/
theorem loadRawResults_error_eq {Row Entity : Type} {m : ExprMap} {env : ExecEnv Row Entity}
    {qIdx : Nat} {e : QBError}
    (h : loadRawResults m env qIdx = .error e) : e = .cacheError := by
  unfold loadRawResults at h
  split at h
  · split at h
    · split at h
      · exact absurd h (by simp)
      · exact runAndStore_error_eq h
    · exact runAndStore_error_eq h
    · split at h
      · exact (Except.error.inj h).symm
      · exact runAndStore_error_eq h
  · exact runAndStore_error_eq h

/-- Every error of optimisticGate is the missing-alias-metadata error or the
missing-version-column error. -/
theorem optimisticGate_error_eq {m : ExprMap} {a : Alias} {e : QBError}
    (h : optimisticGate m a = .error e) :
    e = .aliasMetadataNotSet ∨ ∃ s, e = .noVersionOrUpdateDateColumn s := by
  unfold optimisticGate at h
  split at h
  · split at h
    · exact Or.inl (Except.error.inj h).symm
    · split at h
      · exact Or.inr ⟨_, (Except.error.inj h).symm⟩
      · exact absurd h (by simp)
  · exact absurd h (by simp)

/-- executeEntitiesAndRawResults never raises the version-mismatch error. -/
theorem executeEntities_error_ne_mismatch {Row Entity : Type} (m : ExprMap)
    (env : ExecEnv Row Entity) :
    executeEntitiesAndRawResults m env ≠ .error .optimisticLockVersionMismatch := by
  intro h
  cases hma : m.mainAlias with
  | none => simp [executeEntitiesAndRawResults, hma] at h
  | some a =>
    cases hp : (isPessimisticLockMode m.lockMode && !env.isTransactionActive) with
    | true => simp [executeEntitiesAndRawResults, hma, hp] at h
    | false =>
      cases hog : optimisticGate m a with
      | error e =>
        simp [executeEntitiesAndRawResults, hma, hp, hog] at h
        subst h
        rcases optimisticGate_error_eq hog with he | ⟨s, he⟩ <;> simp at he
      | ok u =>
        cases hpag : ((truthyNum m.skip || truthyNum m.take) &&
            decide (m.joinAttributes.length > 0)) with
        | true =>
          cases h0 : loadRawResults m env 0 with
          | error e =>
            simp [executeEntitiesAndRawResults, hma, hp, hog, hpag, h0] at h
            subst h
            have := loadRawResults_error_eq h0
            simp at this
          | ok p =>
            obtain ⟨rows, bfl⟩ := p
            by_cases hlen : 0 < rows.length
            · cases h1 : loadRawResults m env 1 with
              | error e =>
                simp [executeEntitiesAndRawResults, hma, hp, hog, hpag, h0, hlen, h1] at h
                subst h
                have := loadRawResults_error_eq h1
                simp at this
              | ok p2 =>
                simp [executeEntitiesAndRawResults, hma, hp, hog, hpag, h0, hlen, h1] at h
            · simp [executeEntitiesAndRawResults, hma, hp, hog, hpag, h0, hlen] at h
        | false =>
          cases h0 : loadRawResults m env 0 with
          | error e =>
            simp [executeEntitiesAndRawResults, hma, hp, hog, hpag, h0] at h
            subst h
            have := loadRawResults_error_eq h0
            simp at this
          | ok p =>
            obtain ⟨rows, bfl⟩ := p
            simp [executeEntitiesAndRawResults, hma, hp, hog, hpag, h0] at h

/-- C10: getOne never raises OptimisticLockVersionMismatchError when no
entity was found or the stored lock version is unset or the number 0 — the
version check only runs for a found entity under a truthy optimistic lock
version. -/
theorem claim10_version_check_skipped {Row Entity : Type} (m : ExprMap)
    (env : ExecEnv Row Entity)
    (h : m.lockVersion = none ∨ m.lockVersion = some (.num 0) ∨
      (∀ r, executeEntitiesAndRawResults m env = .ok r → r.entities = [])) :
    getOne m env ≠ .error .optimisticLockVersionMismatch := by
  unfold getOne
  cases hE : executeEntitiesAndRawResults m env with
  | error e =>
    intro hcontra
    have := executeEntities_error_ne_mismatch m env
    rw [hE, Except.error.inj hcontra] at this
    exact this rfl
  | ok results =>
    cases hh : results.entities.head? with
    | none => simp [hh]
    | some result =>
      rcases h with h | h | h
      · simp [hh, h, truthyLockVersion]
      · simp [hh, h, truthyLockVersion]
      · have hempty : results.entities = [] := h results hE
        rw [hempty] at hh
        exact absurd hh (by simp)

/-- C10 witness: the theorem applied to a model without a stored lock
version. -/
theorem claim10_version_check_skipped_witness :
    sampleNoLockModel.lockVersion = none ∧
    getOne sampleNoLockModel sampleEnv ≠ .error .optimisticLockVersionMismatch :=
  ⟨rfl, claim10_version_check_skipped sampleNoLockModel sampleEnv (Or.inl rfl)⟩

/-- C1: under skip/take pagination with at least one join, when the distinct
primary-key id-window query returns zero rows the main query is never issued
and the result has empty raw rows and empty entities. -/
theorem claim1_empty_id_window_short_circuits {Row Entity : Type} (m : ExprMap)
    (env : ExecEnv Row Entity) (r : ExecResult Row Entity) (b : Bool)
    (hpag : truthyNum m.skip = true ∨ truthyNum m.take = true)
    (hjoin : m.joinAttributes ≠ [])
    (hfirst : loadRawResults m env 0 = .ok ([], b))
    (hexec : executeEntitiesAndRawResults m env = .ok r) :
    r.raw = [] ∧ r.entities = [] ∧ r.phases = [.idsQuery] := by
  cases hma : m.mainAlias with
  | none => simp [executeEntitiesAndRawResults, hma] at hexec
  | some a =>
    cases hp : (isPessimisticLockMode m.lockMode && !env.isTransactionActive) with
    | true => simp [executeEntitiesAndRawResults, hma, hp] at hexec
    | false =>
      cases hog : optimisticGate m a with
      | error e => simp [executeEntitiesAndRawResults, hma, hp, hog] at hexec
      | ok u =>
        have hcond : ((truthyNum m.skip || truthyNum m.take) &&
            decide (m.joinAttributes.length > 0)) = true := by
          have hlen : 0 < m.joinAttributes.length := List.length_pos.mpr hjoin
          rcases hpag with h | h <;> simp [h, hlen]
        simp only [executeEntitiesAndRawResults, hma, hp, hog, hcond, hfirst,
          Bool.false_eq_true, if_false, if_true, List.length_nil, Nat.lt_irrefl,
          Except.ok.injEq] at hexec
        rw [← hexec]
        exact ⟨rfl, rfl, rfl⟩

/-- C1 witness: the theorem applied to a paged, joined model whose id-window
query returns no rows. -/
theorem claim1_empty_id_window_short_circuits_witness :
    executeEntitiesAndRawResults samplePagedModel sampleEnv =
      .ok { raw := [], entities := [], phases := [.idsQuery] } ∧
    (({ raw := [], entities := [], phases := [.idsQuery] } : ExecResult Nat Nat).raw = [] ∧
     ({ raw := [], entities := [], phases := [.idsQuery] } : ExecResult Nat Nat).entities = [] ∧
     ({ raw := [], entities := [], phases := [.idsQuery] } : ExecResult Nat Nat).phases =
       [.idsQuery]) := by
  constructor
  · rfl
  · exact claim1_empty_id_window_short_circuits samplePagedModel sampleEnv
      { raw := [], entities := [], phases := [.idsQuery] } true
      (Or.inl (by decide)) (by simp [samplePagedModel]) rfl rfl

/-- C5: getQuery is the concatenation of the clause fragments in the fixed
order comment, SELECT, JOIN, WHERE, GROUP BY, HAVING, ORDER BY,
LIMIT/OFFSET, LOCK, trimmed, and wrapped in parentheses exactly when the
model is a sub-query. -/
theorem claim5_getQuery_clause_order (ctx : Ctx) (commentExpr whereExpr : String)
    (m : ExprMap) (selectExpr limitOffsetExpr lockExpr : String)
    (hsel : createSelectExpression ctx m = .ok selectExpr)
    (hlo : createLimitOffsetExpression ctx.dialect m = .ok limitOffsetExpr)
    (hlk : createLockExpression ctx m = .ok lockExpr) :
    getQuery ctx commentExpr whereExpr m = .ok
      (if m.subQuery then
        "(" ++ (commentExpr ++ selectExpr ++ createJoinExpression ctx m ++ whereExpr ++
          createGroupByExpression ctx m ++ createHavingExpression ctx m ++
          createOrderByExpression ctx m ++ limitOffsetExpr ++ lockExpr).trim ++ ")"
       else
        (commentExpr ++ selectExpr ++ createJoinExpression ctx m ++ whereExpr ++
          createGroupByExpression ctx m ++ createHavingExpression ctx m ++
          createOrderByExpression ctx m ++ limitOffsetExpr ++ lockExpr).trim) := by
  unfold getQuery
  rw [hsel, hlo, hlk]
  rfl

/-- C5 witness: the theorem applied to a raw-table model on the generic
dialect. -/
theorem claim5_getQuery_clause_order_witness :
    getQuery { dialect := .generic } "" "" sampleFromModel =
      .ok ("SELECT user.id FROM user user".trim) := by
  have h := claim5_getQuery_clause_order { dialect := .generic } "" "" sampleFromModel
    "SELECT user.id FROM user user" "" "" rfl rfl rfl
  exact h

end TypeOrmSelectQB
